import Mathlib

/-!
Shallow embedding of the order/cart inventory core of the
Ailoitee-Ecommerce backend (src/controllers/orderController.js:
`orderController` and `cartController`).

Persisted state is a `DB` record of rows.  Handlers are pure functions
from a request and a `DB` to an HTTP-style response together with the
`DB` after the call.  `placeOrder` runs inside a sequelize transaction:
writes issued with the transaction option are buffered and become
persisted only at `t.commit()`; a handler that returns without
committing leaves the persisted state as it was.  That transaction
discipline is reflected directly: every return path of the embedded
`placeOrder` yields the database that the source's return path leaves
committed.
-/

/-- A user row (src/models/user.js): id and unique email. -/
structure User where
  id : Nat
  email : String
deriving Repr, DecidableEq

/-- A product row: id, unit price, stock quantity. -/
structure Product where
  id : Nat
  price : Int
  stock : Int
deriving Repr, DecidableEq

/-- An order row (src/unnamed/part_000 Order model). -/
structure Order where
  id : Nat
  userId : Nat
  productId : Nat
  totalAmount : Int
  quantity : Int
  status : String
  address : String
  city : String
  zipcode : String
  deliveryDate : String
  courierName : String
deriving Repr, DecidableEq

/-- A cart row: one per (userId, productId); `price` is the line total. -/
structure CartItem where
  id : Nat
  userId : Nat
  productId : Nat
  quantity : Int
  price : Int
deriving Repr, DecidableEq

/-- The persisted store. -/
structure DB where
  users : List User
  products : List Product
  orders : List Order
  carts : List CartItem
  nextOrderId : Nat
  nextCartId : Nat
deriving Repr, DecidableEq

/-- HTTP-style response: status code and the `message` field of the JSON body. -/
structure Resp where
  status : Nat
  message : String
deriving Repr, DecidableEq

/-- Body of POST /order/placeOrder.  JS truthiness of the required-field
check is modelled per type: a missing/empty string field is `""`, a
missing/zero numeric field is `0`. -/
structure PlaceOrderReq where
  email : String
  productId : Nat
  quantity : Int
  address : String
  city : String
  zipcode : String
  deliveryDate : String
  courierName : String
deriving Repr, DecidableEq

/-- `User.findOne({ where: { email } })`. -/
def findUser (db : DB) (email : String) : Option User :=
  db.users.find? (fun u => u.email == email)

/-- `Product.findOne({ where: { id: productId } })`. -/
def findProduct (db : DB) (productId : Nat) : Option Product :=
  db.products.find? (fun p => p.id == productId)

/-- `product.save()`: writes the mutated row back, keyed on id. -/
def saveProduct (products : List Product) (u : Product) : List Product :=
  products.map (fun p => if p.id == u.id then u else p)

/-- Whether any required field of the body is JS-falsy
(orderController.js line 17). -/
def PlaceOrderReq.missingField (r : PlaceOrderReq) : Bool :=
  r.email == "" || r.productId == 0 || r.quantity == 0 || r.address == "" ||
  r.city == "" || r.zipcode == "" || r.deliveryDate == "" || r.courierName == ""

/-- orderController.placeOrder (orderController.js lines 9-86).
`insertFails` injects a store failure at the `Order.create` call: the
catch block then answers 500 and the transaction is never committed, so
the buffered `product.save({ transaction: t })` is not persisted. -/
def placeOrder (req : PlaceOrderReq) (insertFails : Bool) (db : DB) : Resp × DB :=
  if req.missingField then
    (⟨400, "All fields (email, productId, quantity, address, city, zipcode, deliveryDate, courierName) are required"⟩, db)
  else
    match findUser db req.email with
    | none => (⟨404, "User not found"⟩, db)
    | some user =>
      match findProduct db req.productId with
      | none => (⟨404, "Product not found"⟩, db)
      | some product =>
        if product.stock < req.quantity then
          (⟨400, "Only " ++ toString product.stock ++ " items left in stock"⟩, db)
        else
          let totalAmount := product.price * req.quantity
          let updated : Product := { product with stock := product.stock - req.quantity }
          if insertFails then
            -- Order.create throws; catch answers 500; t is never committed,
            -- so the buffered product update is discarded.
            (⟨500, "Internal server error"⟩, db)
          else
            let order : Order :=
              { id := db.nextOrderId, userId := user.id, productId := req.productId,
                totalAmount := totalAmount, quantity := req.quantity, status := "Pending",
                address := req.address, city := req.city, zipcode := req.zipcode,
                deliveryDate := req.deliveryDate, courierName := req.courierName }
            (⟨201, "Order placed successfully"⟩,
              { db with products := saveProduct db.products updated,
                        orders := db.orders ++ [order],
                        nextOrderId := db.nextOrderId + 1 })

/-- orderController.getallOrdersByEmail (orderController.js lines 88-155).
Read-only: only the response matters. -/
def getallOrdersByEmail (email : String) (db : DB) : Resp :=
  if email == "" then ⟨400, "Email is required"⟩
  else
    match findUser db email with
    | none => ⟨400, "User not found"⟩
    | some user =>
      let orders := db.orders.filter (fun o => o.userId == user.id)
      if orders.length == 0 then ⟨404, "No orders found for this user"⟩
      else ⟨200, "Order History retrieved successfully"⟩

/-- `Order.findOne({ where: { id: orderId, userId } })`. -/
def findOrder (db : DB) (orderId userId : Nat) : Option Order :=
  db.orders.find? (fun o => o.id == orderId && o.userId == userId)

/-- orderController.cancelOrderById (orderController.js lines 281-346). -/
def cancelOrderById (email : String) (orderId : Nat) (db : DB) : Resp × DB :=
  match findUser db email with
  | none => (⟨404, "User not found with the given email"⟩, db)
  | some user =>
    match findOrder db orderId user.id with
    | none => (⟨404, "Order not found for the given email and orderId"⟩, db)
    | some order =>
      if order.status == "Cancelled" then
        (⟨400, "Order is already cancelled"⟩, db)
      else
        (⟨200, "Order cancelled successfully"⟩,
          { db with orders := db.orders.map (fun o =>
              if o.id == orderId && o.userId == user.id then
                { o with status := "Cancelled" } else o) })

/-- `Cart.findOne({ where: { userId, productId } })`. -/
def findCart (db : DB) (userId productId : Nat) : Option CartItem :=
  db.carts.find? (fun c => c.userId == userId && c.productId == productId)

/-- `cartItem.save()`: writes the mutated cart row back, keyed on id. -/
def saveCart (carts : List CartItem) (u : CartItem) : List CartItem :=
  carts.map (fun c => if c.id == u.id then u else c)

/-- cartController.addToCart (orderController.js source, cartController
class).  Checks stock but never mutates it; creates the (user, product)
row on first add, otherwise adds the requested quantity and the freshly
computed line total onto the existing row. -/
def addToCart (email : String) (productId : Nat) (quantity : Int) (db : DB) :
    Resp × DB :=
  if email == "" || productId == 0 || quantity == 0 then
    (⟨400, "Email, ProductId, and quantity are required"⟩, db)
  else
    match findUser db email with
    | none => (⟨404, "User not found"⟩, db)
    | some user =>
      match findProduct db productId with
      | none => (⟨404, "Product not found"⟩, db)
      | some product =>
        if product.stock < quantity then
          (⟨400, "Only " ++ toString product.stock ++ " items left in stock"⟩, db)
        else
          let totalPrice := product.price * quantity
          match findCart db user.id productId with
          | some cartItem =>
            let updated := { cartItem with quantity := cartItem.quantity + quantity,
                                           price := cartItem.price + totalPrice }
            (⟨200, "Product added to cart successfully"⟩,
              { db with carts := saveCart db.carts updated })
          | none =>
            let created : CartItem :=
              { id := db.nextCartId, userId := user.id, productId := productId,
                quantity := quantity, price := totalPrice }
            (⟨200, "Product added to cart successfully"⟩,
              { db with carts := db.carts ++ [created],
                        nextCartId := db.nextCartId + 1 })

/-- cartController.updateCartQuantity.  Requires an existing cart row;
sets the quantity absolutely and recomputes the line total from the
product's current unit price. -/
def updateCartQuantity (email : String) (productId : Nat) (quantity : Int)
    (db : DB) : Resp × DB :=
  if email == "" || productId == 0 || quantity == 0 then
    (⟨400, "Email, productId and quantity are required"⟩, db)
  else
    match findUser db email with
    | none => (⟨404, "User not found"⟩, db)
    | some user =>
      match findProduct db productId with
      | none => (⟨404, "Product not found"⟩, db)
      | some product =>
        match findCart db user.id productId with
        | none => (⟨404, "Cart item not found"⟩, db)
        | some cartItem =>
          if product.stock < quantity then
            (⟨400, "Only " ++ toString product.stock ++ " items left in stock"⟩, db)
          else
            let updated := { cartItem with quantity := quantity,
                                           price := quantity * product.price }
            (⟨200, "Cart item quantity updated successfully"⟩,
              { db with carts := saveCart db.carts updated })

/-- cartController.removeCartItem: deletes the row with the given id
scoped to the user resolved from the email. -/
def removeCartItem (email : String) (cartId : Nat) (db : DB) : Resp × DB :=
  if email == "" then (⟨400, "Email and CartId are required"⟩, db)
  else
    match findUser db email with
    | none => (⟨404, "User not found"⟩, db)
    | some user =>
      match db.carts.find? (fun c => c.id == cartId && c.userId == user.id) with
      | none => (⟨404, "Cart item not found"⟩, db)
      | some _ =>
        (⟨200, "Cart item removed successfully"⟩,
          { db with carts :=
              db.carts.filter (fun c => !(c.id == cartId && c.userId == user.id)) })

/-- One API call of the inventory core, for reasoning about arbitrary
request sequences. -/
inductive Op where
  | place (req : PlaceOrderReq) (insertFails : Bool)
  | cartAdd (email : String) (productId : Nat) (quantity : Int)
  | cartUpdate (email : String) (productId : Nat) (quantity : Int)
  | cartRemove (email : String) (cartId : Nat)
  | cancel (email : String) (orderId : Nat)
deriving Repr

/-- The database left behind by one call (the response is dropped). -/
def runOp (op : Op) (db : DB) : DB :=
  match op with
  | .place req f => (placeOrder req f db).2
  | .cartAdd e p q => (addToCart e p q db).2
  | .cartUpdate e p q => (updateCartQuantity e p q db).2
  | .cartRemove e c => (removeCartItem e c db).2
  | .cancel e o => (cancelOrderById e o db).2

/-- Run a sequence of calls left to right. -/
def run (ops : List Op) (db : DB) : DB :=
  ops.foldl (fun d op => runOp op d) db

/-- The stock column of the product with the given id, when it exists. -/
def stockOf (db : DB) (pid : Nat) : Option Int :=
  (findProduct db pid).map Product.stock

/-- Total ordered quantity recorded for a product across a list of order
rows.  Order rows are created only by successful `placeOrder` calls and
keep their quantity when cancelled, so over a run this is the sum of the
quantities of the successfully placed orders for that product. -/
def ordersQty (orders : List Order) (pid : Nat) : Int :=
  (orders.filter (fun o => o.productId == pid)).foldr (fun o s => o.quantity + s) 0

/-- `ordersQty` read off a database. -/
def placedQty (db : DB) (pid : Nat) : Int :=
  ordersQty db.orders pid

/-!
Interleaving model of two concurrent `placeOrder` requests against the
same product (both with all fields valid and user/product resolving).
The source fetches the product with `Product.findOne` outside the
transaction and without any row lock (orderController.js lines 36-40),
checks `product.stock < quantity` against that snapshot, and later
persists `stock := snapshot - quantity` at commit.  Each request is
therefore two atomic phases against the shared committed state: an
unguarded read of the stock, then a check-and-commit that writes the
absolute decremented value and inserts the order row.
-/

/-- Shared committed state: the product's stock and the quantities of the
order rows inserted so far. -/
structure ConcState where
  stock : Int
  placed : List Int
deriving Repr, DecidableEq

/-- One in-flight `placeOrder` request: its quantity, the stock snapshot
it has read (if any), and its outcome (`some true` = 201 committed,
`some false` = 400 insufficient stock). -/
structure ThreadSt where
  quantity : Int
  readStock : Option Int
  result : Option Bool
deriving Repr, DecidableEq

/-- One atomic phase of a request.  First step: the unlocked
`Product.findOne` read.  Second step: the stock check against the
snapshot, then `product.save` + `Order.create` + `t.commit()` writing
`snapshot - quantity` as the new stock.  A finished thread does nothing. -/
def threadStep (shared : ConcState) (th : ThreadSt) : ConcState × ThreadSt :=
  match th.readStock, th.result with
  | none, _ => (shared, { th with readStock := some shared.stock })
  | some v, none =>
    if v < th.quantity then
      (shared, { th with result := some false })
    else
      ({ stock := v - th.quantity, placed := shared.placed ++ [th.quantity] },
       { th with result := some true })
  | some _, some _ => (shared, th)

/-- Run two requests under a schedule: `true` steps the first thread,
`false` the second. -/
def runSched : List Bool → ConcState → ThreadSt → ThreadSt →
    ConcState × ThreadSt × ThreadSt
  | [], s, a, b => (s, a, b)
  | true :: rest, s, a, b =>
    let p := threadStep s a
    runSched rest p.1 p.2 b
  | false :: rest, s, a, b =>
    let p := threadStep s b
    runSched rest p.1 a p.2

/-- Sample store: one user, one product (id 1, unit price 100, stock 3). -/
def sampleDB : DB :=
  { users := [⟨1, "a@x.com"⟩], products := [⟨1, 100, 3⟩],
    orders := [], carts := [], nextOrderId := 1, nextCartId := 1 }

/-- A fully populated order request for the sample store. -/
def sampleReq : PlaceOrderReq :=
  { email := "a@x.com", productId := 1, quantity := 2, address := "42 St",
    city := "NY", zipcode := "10001", deliveryDate := "2025-03-01",
    courierName := "FedEx" }

/-- Sample store with an existing cart row (quantity 5, line total 500)
for the pair (user 1, product 1). -/
def cartDB : DB :=
  { users := [⟨1, "a@x.com"⟩], products := [⟨1, 100, 3⟩],
    orders := [], carts := [⟨1, 1, 1, 5, 500⟩], nextOrderId := 1, nextCartId := 2 }

/-- A request asking for more than the sample stock of 3. -/
def sampleReqBig : PlaceOrderReq :=
  { sampleReq with quantity := 5 }

/-- Sample store holding one Pending order (id 1) for user 1, product 1. -/
def orderDB : DB :=
  { users := [⟨1, "a@x.com"⟩], products := [⟨1, 100, 3⟩],
    orders := [⟨1, 1, 1, 200, 2, "Pending", "42 St", "NY", "10001", "2025-03-01", "FedEx"⟩],
    carts := [], nextOrderId := 2, nextCartId := 1 }

/-- A mixed sequence of calls against the sample store: a successful
order, a cart add, a cancellation, an order whose insert fails, a cart
quantity update and a cart removal. -/
def opsSample : List Op :=
  [Op.place sampleReq false, Op.cartAdd "a@x.com" 1 1, Op.cancel "a@x.com" 1,
   Op.place sampleReq true, Op.cartUpdate "a@x.com" 1 1, Op.cartRemove "a@x.com" 1]

/-- Finding under a map that does not change the predicate commutes with
the map. -/
theorem find_map_keyed {α : Type} (l : List α) (f : α → α) (p : α → Bool)
    (hf : ∀ a, p (f a) = p a) :
    (l.map f).find? p = (l.find? p).map f := by
  induction l with
  | nil => rfl
  | cons a t ih =>
    simp only [List.map_cons, List.find?_cons, hf a]
    cases h : p a <;> simp [ih]

/-- `saveProduct` rewrites every row in place, so a lookup afterwards is
the lookup before with the matching row replaced. -/
theorem find_saveProduct (l : List Product) (u : Product) (pid : Nat) :
    (saveProduct l u).find? (fun p => p.id == pid) =
      (l.find? (fun p => p.id == pid)).map
        (fun p => if p.id == u.id then u else p) := by
  unfold saveProduct
  refine find_map_keyed l _ _ (fun a => ?_)
  by_cases h : a.id = u.id <;> simp [h]

/-- Summing quantities with a non-zero seed shifts the total by the seed. -/
theorem foldr_qty_seed (l : List Order) (init : Int) :
    l.foldr (fun o s => o.quantity + s) init =
      l.foldr (fun o s => o.quantity + s) 0 + init := by
  induction l with
  | nil => simp
  | cons a t ih => simp only [List.foldr_cons, ih]; ring

/-- Ordered-quantity total over an appended list of order rows. -/
theorem ordersQty_append (l1 l2 : List Order) (pid : Nat) :
    ordersQty (l1 ++ l2) pid = ordersQty l1 pid + ordersQty l2 pid := by
  unfold ordersQty
  rw [List.filter_append, List.foldr_append, foldr_qty_seed]

/-- Ordered-quantity total of a single row. -/
theorem ordersQty_single (o : Order) (pid : Nat) :
    ordersQty [o] pid = if o.productId = pid then o.quantity else 0 := by
  by_cases h : o.productId = pid <;> simp [ordersQty, List.filter_cons, h]

/-- A rewrite of the order rows that keeps every row's product and
quantity keeps the ordered-quantity total. -/
theorem ordersQty_map (l : List Order) (g : Order → Order) (pid : Nat)
    (h1 : ∀ o, (g o).productId = o.productId)
    (h2 : ∀ o, (g o).quantity = o.quantity) :
    ordersQty (l.map g) pid = ordersQty l pid := by
  unfold ordersQty
  induction l with
  | nil => rfl
  | cons a t ih =>
    by_cases h : a.productId = pid <;>
      simp [List.filter_cons, h1, h2, h, ih]

/-- addToCart touches only the cart rows: products and orders are
unchanged on every path, success or failure. -/
theorem addToCart_frame (e : String) (p : Nat) (q : Int) (db : DB) :
    ((addToCart e p q db).2).products = db.products ∧
    ((addToCart e p q db).2).orders = db.orders := by
  unfold addToCart
  repeat' split
  all_goals exact ⟨rfl, rfl⟩

/-- updateCartQuantity touches only the cart rows. -/
theorem updateCartQuantity_frame (e : String) (p : Nat) (q : Int) (db : DB) :
    ((updateCartQuantity e p q db).2).products = db.products ∧
    ((updateCartQuantity e p q db).2).orders = db.orders := by
  unfold updateCartQuantity
  repeat' split
  all_goals exact ⟨rfl, rfl⟩

/-- removeCartItem touches only the cart rows. -/
theorem removeCartItem_frame (e : String) (c : Nat) (db : DB) :
    ((removeCartItem e c db).2).products = db.products ∧
    ((removeCartItem e c db).2).orders = db.orders := by
  unfold removeCartItem
  repeat' split
  all_goals exact ⟨rfl, rfl⟩

/-- Cancellation never writes the products table. -/
theorem cancelOrderById_products (e : String) (oid : Nat) (db : DB) :
    ((cancelOrderById e oid db).2).products = db.products := by
  unfold cancelOrderById
  repeat' split
  all_goals rfl

/-- Cancellation only flips a status flag, so the ordered-quantity total
of every product is unchanged. -/
theorem cancelOrderById_qty (e : String) (oid : Nat) (db : DB) (pid : Nat) :
    placedQty (cancelOrderById e oid db).2 pid = placedQty db pid := by
  unfold cancelOrderById placedQty
  repeat' split
  all_goals try rfl
  exact ordersQty_map _ _ _ (fun o => by split <;> rfl) (fun o => by split <;> rfl)

/-- Reading a product's stock after the committed write of `placeOrder`:
the lookup sees the replaced row when the ids match. -/
theorem stockOf_commit (db : DB) (u : Product) (ords : List Order)
    (noid : Nat) (pid : Nat) :
    stockOf { db with products := saveProduct db.products u,
                      orders := ords, nextOrderId := noid } pid =
      (findProduct db pid).map (fun p => (if p.id == u.id then u else p).stock) := by
  unfold stockOf findProduct
  show ((saveProduct db.products u).find? _).map _ = _
  rw [find_saveProduct]
  cases db.products.find? (fun p => p.id == pid) <;> rfl

/-- Ordered-quantity total read off the committed write of `placeOrder`. -/
theorem placedQty_commit (db : DB) (u : Product) (ords : List Order)
    (noid : Nat) (pid : Nat) :
    placedQty { db with products := saveProduct db.products u,
                        orders := ords, nextOrderId := noid } pid =
      ordersQty ords pid := rfl

/-- Ledger accounting for a single `placeOrder` call: whatever branch is
taken, the observed stock plus the recorded ordered quantity of any
product is conserved, and a successful decrement never drives the stock
negative (the guard `product.stock < quantity` is checked at the point
of decrement). -/
theorem placeOrder_stock (req : PlaceOrderReq) (f : Bool) (db : DB) (pid : Nat)
    (s : Int) (h : stockOf db pid = some s) :
    ∃ s2, stockOf (placeOrder req f db).2 pid = some s2 ∧
      s2 + placedQty (placeOrder req f db).2 pid = s + placedQty db pid ∧
      (0 ≤ s → 0 ≤ s2) := by
  have h' := h
  unfold stockOf at h'
  obtain ⟨prod0, hp0, hs0⟩ := Option.map_eq_some'.mp h'
  have hpid0 : prod0.id = pid := by
    have h2 := hp0
    unfold findProduct at h2
    simpa using List.find?_some h2
  simp only [placeOrder]
  split
  · exact ⟨s, h, rfl, fun hs => hs⟩
  split
  · exact ⟨s, h, rfl, fun hs => hs⟩
  next user hu =>
  split
  · exact ⟨s, h, rfl, fun hs => hs⟩
  next product hp =>
  split
  · exact ⟨s, h, rfl, fun hs => hs⟩
  next hst =>
  split
  · exact ⟨s, h, rfl, fun hs => hs⟩
  next hf =>
  have hprodid : product.id = req.productId := by
    have h2 := hp
    unfold findProduct at h2
    simpa using List.find?_some h2
  by_cases hpp : pid = req.productId
  · subst hpp
    have hpe : prod0 = product := by
      rw [hp0] at hp
      exact Option.some.inj hp
    subst hpe
    refine ⟨prod0.stock - req.quantity, ?_, ?_, ?_⟩
    · rw [stockOf_commit, hp0]
      simp
    · rw [placedQty_commit, ordersQty_append, ordersQty_single]
      simp only [placedQty]
      rw [hs0]
      simp
    · intro _
      omega
  · have hne : prod0.id ≠ product.id := by
      rw [hpid0, hprodid]
      exact hpp
    refine ⟨s, ?_, ?_, fun hs => hs⟩
    · rw [stockOf_commit, hp0]
      simp [hne, hs0]
    · rw [placedQty_commit, ordersQty_append, ordersQty_single]
      simp only [placedQty]
      simp [Ne.symm hpp]

/-- Two stores with the same products and orders agree on stock and on
the ordered-quantity totals. -/
theorem stock_frame_of (db db2 : DB) (hp : db2.products = db.products)
    (ho : db2.orders = db.orders) (pid : Nat) :
    stockOf db2 pid = stockOf db pid ∧ placedQty db2 pid = placedQty db pid := by
  unfold stockOf findProduct placedQty
  rw [hp, ho]
  exact ⟨rfl, rfl⟩

/-- Ledger accounting for an arbitrary call of the core. -/
theorem runOp_stock (op : Op) (db : DB) (pid : Nat) (s : Int)
    (h : stockOf db pid = some s) :
    ∃ s2, stockOf (runOp op db) pid = some s2 ∧
      s2 + placedQty (runOp op db) pid = s + placedQty db pid ∧
      (0 ≤ s → 0 ≤ s2) := by
  cases op with
  | place req f => exact placeOrder_stock req f db pid s h
  | cartAdd e p q =>
    obtain ⟨hp, ho⟩ := addToCart_frame e p q db
    obtain ⟨h1, h2⟩ := stock_frame_of db _ hp ho pid
    refine ⟨s, ?_, ?_, fun hs => hs⟩
    · show stockOf (addToCart e p q db).2 pid = some s
      rw [h1]; exact h
    · show s + placedQty (addToCart e p q db).2 pid = s + placedQty db pid
      rw [h2]
  | cartUpdate e p q =>
    obtain ⟨hp, ho⟩ := updateCartQuantity_frame e p q db
    obtain ⟨h1, h2⟩ := stock_frame_of db _ hp ho pid
    refine ⟨s, ?_, ?_, fun hs => hs⟩
    · show stockOf (updateCartQuantity e p q db).2 pid = some s
      rw [h1]; exact h
    · show s + placedQty (updateCartQuantity e p q db).2 pid = s + placedQty db pid
      rw [h2]
  | cartRemove e c =>
    obtain ⟨hp, ho⟩ := removeCartItem_frame e c db
    obtain ⟨h1, h2⟩ := stock_frame_of db _ hp ho pid
    refine ⟨s, ?_, ?_, fun hs => hs⟩
    · show stockOf (removeCartItem e c db).2 pid = some s
      rw [h1]; exact h
    · show s + placedQty (removeCartItem e c db).2 pid = s + placedQty db pid
      rw [h2]
  | cancel e o =>
    refine ⟨s, ?_, ?_, fun hs => hs⟩
    · show stockOf (cancelOrderById e o db).2 pid = some s
      unfold stockOf findProduct
      rw [cancelOrderById_products]
      exact h
    · show s + placedQty (cancelOrderById e o db).2 pid = s + placedQty db pid
      rw [cancelOrderById_qty]

/-- C1: For every product whose stock is a non-negative integer, after
any sequence of order placements, cart operations and order
cancellations, the product still exists, its stock is still
non-negative, and the stock equals the initial stock minus the total
quantity recorded on order rows gained during the run — order rows are
created exactly by successful `placeOrder` calls and keep their quantity
and product when cancelled, so that difference is the sum of the
quantities of the successfully placed orders, and cancellations add
nothing back. -/
theorem run_stock_invariant (ops : List Op) (db : DB) (pid : Nat) (s : Int)
    (h : stockOf db pid = some s) (hs : 0 ≤ s) :
    ∃ s2, stockOf (run ops db) pid = some s2 ∧ 0 ≤ s2 ∧
      s2 = s - (placedQty (run ops db) pid - placedQty db pid) := by
  induction ops generalizing db s with
  | nil =>
    refine ⟨s, h, hs, ?_⟩
    show s = s - (placedQty db pid - placedQty db pid)
    simp
  | cons op t ih =>
    obtain ⟨s1, h1, hsum, hpos⟩ := runOp_stock op db pid s h
    obtain ⟨s2, h2, hpos2, heq⟩ := ih (runOp op db) s1 h1 (hpos hs)
    refine ⟨s2, ?_, hpos2, ?_⟩
    · show stockOf (run t (runOp op db)) pid = some s2
      exact h2
    · show s2 = s - (placedQty (run t (runOp op db)) pid - placedQty db pid)
      rw [heq]
      omega

/-- Witness for C1 on the sample store and a mixed call sequence. -/
theorem run_stock_invariant_witness :
    ∃ s2, stockOf (run opsSample sampleDB) 1 = some s2 ∧ 0 ≤ s2 ∧
      s2 = 3 - (placedQty (run opsSample sampleDB) 1 - placedQty sampleDB 1) :=
  run_stock_invariant opsSample sampleDB 1 3 (by decide) (by decide)

/-- C2: placeOrder is atomic — whenever the call does not answer 201
(missing field, user or product not found, insufficient stock, or an
internal failure after the stock decrement), the persisted store is
exactly what it was before the call. -/
theorem placeOrder_atomic (req : PlaceOrderReq) (f : Bool) (db : DB)
    (resp : Resp) (db2 : DB) (h : placeOrder req f db = (resp, db2))
    (hne : resp.status ≠ 201) : db2 = db := by
  unfold placeOrder at h
  repeat' split at h
  all_goals first
    | (injection h with h1 h2; exact h2.symm)
    | (injection h with h1 h2; rw [← h1] at hne; exact absurd rfl hne)

/-- Witness for C2: a failure injected at the order insert, after the
stock decrement, leaves the sample store untouched. -/
theorem placeOrder_atomic_witness :
    (placeOrder sampleReq true sampleDB).1.status = 500 ∧
    (placeOrder sampleReq true sampleDB).2 = sampleDB :=
  ⟨by decide,
   placeOrder_atomic sampleReq true sampleDB
     (placeOrder sampleReq true sampleDB).1
     (placeOrder sampleReq true sampleDB).2 rfl (by decide)⟩

/-- C3: For an existing user and product, asking for more than the
current stock fails with status 400, leaves the store untouched, and the
message is exactly the string Only N items left in stock, where N is the
current stock count. -/
theorem placeOrder_insufficient (req : PlaceOrderReq) (f : Bool) (db : DB)
    (user : User) (product : Product)
    (hm : req.missingField = false)
    (hu : findUser db req.email = some user)
    (hp : findProduct db req.productId = some product)
    (hq : product.stock < req.quantity) :
    placeOrder req f db =
      (⟨400, "Only " ++ toString product.stock ++ " items left in stock"⟩, db) := by
  simp [placeOrder, hm, hu, hp, hq]

/-- Witness for C3: asking for 5 of a product with stock 3 answers the
exact message with the available count and changes nothing. -/
theorem placeOrder_insufficient_witness :
    placeOrder sampleReqBig false sampleDB =
      (⟨400, "Only 3 items left in stock"⟩, sampleDB) := by
  have h := placeOrder_insufficient sampleReqBig false sampleDB
    ⟨1, "a@x.com"⟩ ⟨1, 100, 3⟩ (by decide) (by decide) (by decide) (by decide)
  simpa using h

/-- C4: For an existing user and product with every field present and
quantity at most the stock, placeOrder answers 201, persists the stock
decremented by exactly the quantity, and appends one order row with
status Pending and totalAmount equal to unit price times quantity. -/
theorem placeOrder_success (req : PlaceOrderReq) (db : DB)
    (user : User) (product : Product)
    (hm : req.missingField = false)
    (hu : findUser db req.email = some user)
    (hp : findProduct db req.productId = some product)
    (hq : ¬ product.stock < req.quantity) :
    (placeOrder req false db).1 = ⟨201, "Order placed successfully"⟩ ∧
    stockOf (placeOrder req false db).2 req.productId =
      some (product.stock - req.quantity) ∧
    (placeOrder req false db).2.orders = db.orders ++
      [{ id := db.nextOrderId, userId := user.id, productId := req.productId,
         totalAmount := product.price * req.quantity, quantity := req.quantity,
         status := "Pending", address := req.address, city := req.city,
         zipcode := req.zipcode, deliveryDate := req.deliveryDate,
         courierName := req.courierName }] := by
  refine ⟨?_, ?_, ?_⟩
  · simp [placeOrder, hm, hu, hp, hq]
  · simp only [placeOrder, hm, hu, hp]
    simp only [Bool.false_eq_true, if_false, if_neg hq, if_true]
    rw [stockOf_commit, hp]
    simp
  · simp [placeOrder, hm, hu, hp, hq]

/-- Witness for C4 on the sample store: ordering 2 of the product with
stock 3 and unit price 100 leaves stock 1 and records a Pending order of
total 200. -/
theorem placeOrder_success_witness :
    (placeOrder sampleReq false sampleDB).1 = ⟨201, "Order placed successfully"⟩ ∧
    stockOf (placeOrder sampleReq false sampleDB).2 sampleReq.productId =
      some ((1:Int)) ∧
    (placeOrder sampleReq false sampleDB).2.orders = sampleDB.orders ++
      [{ id := sampleDB.nextOrderId, userId := 1, productId := sampleReq.productId,
         totalAmount := 200, quantity := sampleReq.quantity,
         status := "Pending", address := sampleReq.address, city := sampleReq.city,
         zipcode := sampleReq.zipcode, deliveryDate := sampleReq.deliveryDate,
         courierName := sampleReq.courierName }] := by
  have h := placeOrder_success sampleReq sampleDB ⟨1, "a@x.com"⟩ ⟨1, 100, 3⟩
    (by decide) (by decide) (by decide) (by decide)
  simpa using h

/-- C5 (refuted by the code): `placeOrder` fetches the product with no
row lock and outside the transaction, so two concurrent requests can
both read the same stock snapshot before either commits.  Under the
schedule read-A, read-B, commit-A, commit-B with initial stock 1 and
quantity 1 each, both requests finish with a committed 201 although
their combined quantity 2 exceeds the initial stock 1. -/
theorem placeOrder_race_oversells :
    ((runSched [true, false, true, false] ⟨1, []⟩ ⟨1, none, none⟩
        ⟨1, none, none⟩).2.1.result = some true ∧
     (runSched [true, false, true, false] ⟨1, []⟩ ⟨1, none, none⟩
        ⟨1, none, none⟩).2.2.result = some true ∧
     (runSched [true, false, true, false] ⟨1, []⟩ ⟨1, none, none⟩
        ⟨1, none, none⟩).1.placed = [1, 1]) ∧
    (1 : Int) + 1 > 1 := by
  decide

/-- C9 (code bug): the error taxonomy and the route's own swagger map a
missing user to 404, but getallOrdersByEmail answers status 400 with
"User not found" (orderController.js line 106) for an email no user
has. -/
theorem getOrdersByEmail_unknown_user_400 :
    getallOrdersByEmail "ghost@x.com" sampleDB = ⟨400, "User not found"⟩ := by
  decide

/-- C10: the addToCart stock check compares only the per-call requested
quantity against the current stock, never the accumulated cart quantity:
against stock 3, two adds of 2 both succeed and leave a single cart row
holding quantity 4, exceeding the stock. -/
theorem addToCart_percall_stock_check :
    (addToCart "a@x.com" 1 2 sampleDB).1.status = 200 ∧
    (addToCart "a@x.com" 1 2 (addToCart "a@x.com" 1 2 sampleDB).2).1.status = 200 ∧
    findCart (addToCart "a@x.com" 1 2 (addToCart "a@x.com" 1 2 sampleDB).2).2 1 1 =
      some ⟨1, 1, 1, 4, 400⟩ ∧
    stockOf sampleDB 1 = some 3 ∧ ((3 : Int) < 4) := by
  decide

/-- C6: addToCart never writes the products table (so stock is
unchanged), answers 200, and is additive on the cart: with no existing
(user, product) row it creates one with the requested quantity and line
total unit price times quantity; with an existing row it adds the
quantity and adds unit price times quantity onto the stored total. -/
theorem addToCart_additive (e : String) (pid : Nat) (q : Int) (db : DB)
    (user : User) (product : Product)
    (hv : (e == "" || pid == 0 || q == 0) = false)
    (hu : findUser db e = some user)
    (hp : findProduct db pid = some product)
    (hq : ¬ product.stock < q) :
    ((addToCart e pid q db).2).products = db.products ∧
    (addToCart e pid q db).1 = ⟨200, "Product added to cart successfully"⟩ ∧
    (match findCart db user.id pid with
     | none => (addToCart e pid q db).2.carts =
         db.carts ++ [⟨db.nextCartId, user.id, pid, q, product.price * q⟩]
     | some item => (addToCart e pid q db).2.carts =
         saveCart db.carts { item with quantity := item.quantity + q,
                                       price := item.price + product.price * q }) := by
  cases hc : findCart db user.id pid with
  | none =>
    refine ⟨(addToCart_frame e pid q db).1, ?_, ?_⟩
    · simp [addToCart, hv, hu, hp, hq, hc]
    · simp [addToCart, hv, hu, hp, hq, hc]
  | some item =>
    refine ⟨(addToCart_frame e pid q db).1, ?_, ?_⟩
    · simp [addToCart, hv, hu, hp, hq, hc]
    · simp [addToCart, hv, hu, hp, hq, hc]

/-- Witness for C6: adding 2 to the existing cart row of quantity 5 and
total 500 (unit price 100) yields quantity 7 and total 700, stock
untouched. -/
theorem addToCart_additive_witness :
    ((addToCart "a@x.com" 1 2 cartDB).2).products = cartDB.products ∧
    (addToCart "a@x.com" 1 2 cartDB).1 = ⟨200, "Product added to cart successfully"⟩ ∧
    (addToCart "a@x.com" 1 2 cartDB).2.carts = [⟨1, 1, 1, 7, 700⟩] := by
  have h := addToCart_additive "a@x.com" 1 2 cartDB ⟨1, "a@x.com"⟩ ⟨1, 100, 3⟩
    (by decide) (by decide) (by decide) (by decide)
  obtain ⟨h1, h2, h3⟩ := h
  refine ⟨h1, h2, ?_⟩
  have hc : findCart cartDB 1 1 = some ⟨1, 1, 1, 5, 500⟩ := by decide
  rw [hc] at h3
  rw [h3]
  decide

/-- C7: updateCartQuantity requires an existing cart row for the pair
and fails with 404 and no mutation otherwise; with an existing row and a
new quantity within stock it answers 200, sets the quantity absolutely
and recomputes the line total as quantity times the current unit
price. -/
theorem updateCartQuantity_spec (e : String) (pid : Nat) (q : Int) (db : DB)
    (user : User) (product : Product)
    (hv : (e == "" || pid == 0 || q == 0) = false)
    (hu : findUser db e = some user)
    (hp : findProduct db pid = some product) :
    (match findCart db user.id pid with
     | none => updateCartQuantity e pid q db = (⟨404, "Cart item not found"⟩, db)
     | some item => ¬ product.stock < q →
         (updateCartQuantity e pid q db).1 =
           ⟨200, "Cart item quantity updated successfully"⟩ ∧
         (updateCartQuantity e pid q db).2.carts =
           saveCart db.carts { item with quantity := q,
                                         price := q * product.price }) := by
  cases hc : findCart db user.id pid with
  | none => simp [updateCartQuantity, hv, hu, hp, hc]
  | some item =>
    intro hq
    constructor
    · simp [updateCartQuantity, hv, hu, hp, hc, hq]
    · simp [updateCartQuantity, hv, hu, hp, hc, hq]

/-- Witness for C7: updating the cart row of accumulated quantity 5 and
total 500 to quantity 2 at unit price 100 recomputes the total to 200
(absolute, not additive). -/
theorem updateCartQuantity_spec_witness :
    (updateCartQuantity "a@x.com" 1 2 cartDB).1 =
      ⟨200, "Cart item quantity updated successfully"⟩ ∧
    (updateCartQuantity "a@x.com" 1 2 cartDB).2.carts = [⟨1, 1, 1, 2, 200⟩] := by
  have h := updateCartQuantity_spec "a@x.com" 1 2 cartDB ⟨1, "a@x.com"⟩ ⟨1, 100, 3⟩
    (by decide) (by decide) (by decide)
  have hc : findCart cartDB 1 1 = some ⟨1, 1, 1, 5, 500⟩ := by decide
  rw [hc] at h
  obtain ⟨h1, h2⟩ := h (by decide)
  refine ⟨h1, ?_⟩
  rw [h2]
  decide

/-- C8: Cancelling a Pending order resolved for its owner answers 200
and rewrites only that order's status to Cancelled — the products table,
and so every stock count, is identical before and after — and cancelling
the same order again fails with 400 "Order is already cancelled" and
changes nothing. -/
theorem cancelOrder_spec (e : String) (oid : Nat) (db : DB)
    (user : User) (order : Order)
    (hu : findUser db e = some user)
    (ho : findOrder db oid user.id = some order)
    (hs : order.status = "Pending") :
    (cancelOrderById e oid db).1 = ⟨200, "Order cancelled successfully"⟩ ∧
    (cancelOrderById e oid db).2 =
      { db with orders := db.orders.map (fun o =>
          if o.id == oid && o.userId == user.id then { o with status := "Cancelled" }
          else o) } ∧
    ((cancelOrderById e oid db).2).products = db.products ∧
    cancelOrderById e oid (cancelOrderById e oid db).2 =
      (⟨400, "Order is already cancelled"⟩, (cancelOrderById e oid db).2) := by
  have hsb : (order.status == "Cancelled") = false := by
    rw [hs]
    decide
  have h1 : (cancelOrderById e oid db).1 = ⟨200, "Order cancelled successfully"⟩ := by
    simp [cancelOrderById, hu, ho, hsb]
  have h2 : (cancelOrderById e oid db).2 =
      { db with orders := db.orders.map (fun o =>
          if o.id == oid && o.userId == user.id then { o with status := "Cancelled" }
          else o) } := by
    simp [cancelOrderById, hu, ho, hsb]
  have ho' := ho
  unfold findOrder at ho'
  have hpo : (order.id == oid && order.userId == user.id) = true := by
    have h3 := List.find?_some ho'
    exact h3
  have hpres : ∀ o : Order,
      (((if o.id == oid && o.userId == user.id then
          { o with status := "Cancelled" } else o).id == oid) &&
       ((if o.id == oid && o.userId == user.id then
          { o with status := "Cancelled" } else o).userId == user.id)) =
      (o.id == oid && o.userId == user.id) := by
    intro o
    by_cases hco : (o.id == oid && o.userId == user.id) = true <;> simp [hco]
  refine ⟨h1, h2, ?_, ?_⟩
  · rw [h2]
  · rw [h2]
    have hu2 : findUser { db with orders := db.orders.map (fun o =>
        if o.id == oid && o.userId == user.id then { o with status := "Cancelled" }
        else o) } e = some user := hu
    have ho2 : findOrder { db with orders := db.orders.map (fun o =>
        if o.id == oid && o.userId == user.id then { o with status := "Cancelled" }
        else o) } oid user.id = some { order with status := "Cancelled" } := by
      unfold findOrder
      show (db.orders.map _).find? _ = _
      rw [find_map_keyed db.orders
        (fun o => if o.id == oid && o.userId == user.id then
          { o with status := "Cancelled" } else o)
        (fun o => o.id == oid && o.userId == user.id) hpres, ho']
      have hpo2 : order.id = oid ∧ order.userId = user.id := by simpa using hpo
      simp [hpo2.1, hpo2.2]
    simp only [cancelOrderById, hu2, ho2]
    simp

/-- Witness for C8 on the sample store with one Pending order: the first
cancel answers 200 and leaves the product rows untouched, the second
answers 400 and changes nothing. -/
theorem cancelOrder_spec_witness :
    (cancelOrderById "a@x.com" 1 orderDB).1 = ⟨200, "Order cancelled successfully"⟩ ∧
    ((cancelOrderById "a@x.com" 1 orderDB).2).products = orderDB.products ∧
    cancelOrderById "a@x.com" 1 (cancelOrderById "a@x.com" 1 orderDB).2 =
      (⟨400, "Order is already cancelled"⟩, (cancelOrderById "a@x.com" 1 orderDB).2) := by
  have h := cancelOrder_spec "a@x.com" 1 orderDB ⟨1, "a@x.com"⟩
    ⟨1, 1, 1, 200, 2, "Pending", "42 St", "NY", "10001", "2025-03-01", "FedEx"⟩
    (by decide) (by decide) rfl
  exact ⟨h.1, h.2.2.1, h.2.2.2⟩
